import Mathlib

/-!
Shallow embedding of the simulation orchestration engine of the yearn-sdk
repository (files `src/unnamed/part_008` — the current `SimulationInterface`,
`src/unnamed/part_009` — its older revision, and the legacy
`src/services/simulation.ts`), together with proofs about the behaviour of
deposits and withdrawals, approval handling, sandbox (fork) usage, and the
numeric normalisation of outcomes.

Modelling conventions:
* addresses (`Address`) are strings, amounts (`Integer` strings in the source)
  are naturals, `bignumber.js` values are rationals with the library's
  documented rounding (20 decimal places, round-half-up for the nonnegative
  values that occur here);
* every external collaborator (vault contract reads, the Zapper route
  provider, the price oracle, the simulation backend) is a field of an
  environment record `Env`, and each embedded engine function additionally
  returns the list of network events it issued, in order;
* the partner service is absent (`this.yearn.services.partner` is
  `undefined` in the source unless configured), so `shouldUsePartnerService`
  is `false` and `getActionableAddress` returns the vault itself;
* JavaScript object mutation of the caller-supplied `options` is modelled by
  explicit state passing: functions that mutate `options` return the final
  value of the record.
-/

deriving instance DecidableEq for Except

namespace YearnSdk

abbrev Addr := String

/-- `EthAddress` from helpers: the pseudo-address of the native gas token. -/
def EthAddress : Addr := "0xEeeeeEeeeEeEeeEeEeEeeEEEeeeeEeeeeeeeEEeE"

/-- `ZeroAddress` from helpers. -/
def ZeroAddress : Addr := "0x0000000000000000000000000000000000000000"

/-- `WethAddress` from helpers. -/
def WethAddress : Addr := "0xC02aaA39b223FE8D0A0e5C4F27eAD9083C756Cc2"

/-- Typed errors thrown by the engine (`SdkError`, `ZapperError`,
`PriceFetchingError`, `EthersError`). `noSlippage` is
`SdkError.NO_SLIPPAGE` ("slippage needs to be specified for a zap"). -/
inductive Err where
  | noSlippage : Err
  | sdk : String → Err
  | zapper : String → Err
  | priceFetching : String → Err
  | ethers : String → Err
deriving Repr, DecidableEq

/-- `SimulationOptions` (src/types/custom/simulation): `slippage` is a JS
number, `gasPrice`/`gasLimit` are `Integer` strings, `forkId`/`root` are
backend identifiers (modelled as naturals), `save` a boolean. -/
structure SimulationOptions where
  slippage : Option ℚ := none
  forkId : Option ℕ := none
  root : Option ℕ := none
  save : Option Bool := none
  gasPrice : Option ℕ := none
  gasLimit : Option ℕ := none
deriving Repr, DecidableEq

/-- JavaScript falsiness of an optional number (`!options.slippage`):
`undefined` and `0` are both falsy. -/
def numFalsy : Option ℚ → Bool
  | none => true
  | some x => x = 0

/-- JavaScript falsiness of an optional `Integer` string
(`options.gasPrice || ...`): only `undefined` is falsy — the string "0" is
truthy. -/
def strFalsy : Option ℕ → Bool
  | none => true
  | some _ => false

/-- Network events issued by the engine, in program order. -/
inductive Ev where
  | vaultTokenRead : Addr → Ev
  | vaultDecimalsRead : Addr → Ev
  | vaultPpsRead : Addr → Ev
  /-- on-chain `allowance(owner, spender)` read on a token contract -/
  | allowanceRead (token owner spender : Addr) : Ev
  | zapInApprovalState (owner token : Addr) : Ev
  | zapOutApprovalState (owner vault : Addr) : Ev
  | zapInApprovalTransaction (owner token : Addr) : Ev
  | zapOutApprovalTransaction (owner vault : Addr) : Ev
  /-- `simulationExecutor.createFork()` -/
  | createFork : Ev
  /-- `simulationExecutor.makeSimulationRequest(from, to, data, options)`;
  records the `forkId`, `save` and `root` fields of the options sent. -/
  | simRequest (sender target : Addr) (forkId : Option ℕ) (save : Option Bool) (root : Option ℕ) : Ev
  /-- `simulationExecutor.simulateVaultInteraction(from, to, data, targetToken, options)` -/
  | simVault (sender target targetToken : Addr) (forkId : Option ℕ) (save : Option Bool)
      (root : Option ℕ) (gasLimit : Option ℕ) : Ev
  /-- `zapper.zapIn(from, sellToken, amount, vault, gasPrice, slippage, skipGasEstimate, protocol)` -/
  | zapInQuote (sender sellToken : Addr) (amount : ℕ) (vault : Addr) (skipGasEstimate : Bool) : Ev
  /-- `zapper.zapOut(from, toToken, amount, vault, gasPrice, slippage, skipGasEstimate)` -/
  | zapOutQuote (sender token : Addr) (amount : ℕ) (vault : Addr) (skipGasEstimate : Bool) : Ev
  /-- `oracle.getNormalizedValueUsdc(token, amount)` -/
  | oracleUsdc (token : Addr) (amount : ℕ) : Ev
  /-- `pickle.getPriceUsdc(vault)` -/
  | pickleUsdc (vault : Addr) : Ev
deriving Repr, DecidableEq

/-- Quote returned by the Zapper route provider (`zapInParams` /
`zapOutParams`): encoded call target, attached value, gas values and the
token bought. The encoded calldata itself is irrelevant to the claims and
is omitted. -/
structure ZapQuote where
  target : Addr
  value : ℕ
  gas : ℕ
  gasPrice : ℕ
  buyTokenAddress : Addr
deriving Repr, DecidableEq

/-- `from`/`to` of an approval transaction returned by
`zapInApprovalTransaction` / `zapOutApprovalTransaction`. -/
structure ApprovalTx where
  txFrom : Addr
  txTo : Addr
deriving Repr, DecidableEq

/-- The external collaborators of the engine, as pure functions: vault
contract reads, the on-chain allowance, the Zapper route provider, the
simulation backend and the price oracles. A fixed `Env` represents one
deterministic behaviour of all collaborators. -/
structure Env where
  /-- `isEthereum(this.chainId)` -/
  isEth : Bool := true
  /-- `getAddress` checksum normalisation from @ethersproject/address -/
  getAddress : Addr → Addr := id
  /-- `vaultContract.token()` -/
  vaultToken : Addr → Addr
  /-- `vaultContract.decimals()` -/
  decimals : Addr → ℕ
  /-- `vaultContract.pricePerShare()` -/
  pricePerShare : Addr → ℕ
  /-- `contract.allowance(owner, spender)` on `token` -/
  allowance : Addr → Addr → Addr → ℕ
  /-- `zapper.zapInApprovalState(owner, token).isApproved` -/
  zapInApproved : Addr → Addr → Bool
  /-- `zapper.zapOutApprovalState(owner, vault).isApproved` -/
  zapOutApproved : Addr → Addr → Bool
  zapInApprovalTx : ApprovalTx
  zapOutApprovalTx : ApprovalTx
  /-- id returned by `simulationExecutor.createFork()` -/
  freshForkId : ℕ
  /-- `simulation.id` returned by `makeSimulationRequest` -/
  simulationId : ℕ
  /-- token amount produced by the simulation backend (`simulateVaultInteraction`
  result, or the call-trace output of `makeSimulationRequest`) -/
  simOutput : ℕ
  zapInParams : ZapQuote
  zapOutParams : ZapQuote
  /-- `oracle.getNormalizedValueUsdc(token, amount)` -/
  oracleUsdc : Addr → ℕ → ℕ
  /-- `pickle.getPriceUsdc(vault)` -/
  pickleUsdc : Addr → ℕ
  /-- `zapper.getZapProtocol({ vault })` is `ZapProtocol.PICKLE` -/
  protoPickle : Addr → Bool

/-- `DepositArgs` of src/unnamed/part_008. -/
structure DepositArgs where
  sender : Addr
  sellToken : Addr
  amount : ℕ
  toVault : Addr
  options : SimulationOptions
deriving Repr, DecidableEq

/-- `UnderlyingToken` of src/unnamed/part_008. -/
structure UnderlyingToken where
  address : Addr
  decimals : ℕ
  pricePerShare : ℕ
deriving Repr, DecidableEq

/-- `ApprovalData` of src/unnamed/part_008. -/
structure ApprovalData where
  approvalTransactionId : Option ℕ := none
  forkId : Option ℕ := none
deriving Repr, DecidableEq

/-- `TransactionOutcome` (src/types/custom/simulation). USD amounts and the
underlying amount are produced through `BigNumber.toFixed(0)` and are
integers; `conversionRate` and `slippage` are JS numbers, modelled as
rationals. -/
structure TransactionOutcome where
  sourceTokenAddress : Addr
  sourceTokenAmount : ℕ
  targetTokenAddress : Addr
  targetTokenAmount : ℕ
  targetTokenAmountUsdc : ℤ
  targetUnderlyingTokenAddress : Addr
  targetUnderlyingTokenAmount : ℤ
  conversionRate : ℚ
  slippage : ℚ
deriving Repr, DecidableEq

/-- The `TransactionOutcome` shape produced by the legacy
`src/services/simulation.ts` zap functions (no `targetTokenAmountUsdc`). -/
structure LegacyOutcome where
  sourceTokenAddress : Addr
  sourceTokenAmount : ℕ
  targetTokenAddress : Addr
  targetTokenAmount : ℕ
  targetUnderlyingTokenAddress : Addr
  targetUnderlyingTokenAmount : ℤ
  conversionRate : ℚ
  slippage : ℚ
deriving Repr, DecidableEq

/-! ### bignumber.js arithmetic

`BigNumber` division rounds the quotient to `DECIMAL_PLACES` (default 20)
decimal places with `ROUNDING_MODE` 4 (round half away from zero, i.e.
half-up for the nonnegative values occurring here); multiplication is
exact; `toFixed(0)` rounds to an integer with the same rounding mode. -/

/-- `BigNumber.div`: quotient rounded half-up to `dp` decimal places
(nonnegative operands). -/
def bnDivRound (dp : ℕ) (x y : ℚ) : ℚ := (⌊x / y * 10 ^ dp + 1 / 2⌋ : ℚ) / 10 ^ dp

/-- `BigNumber.div` with the default 20 decimal places. -/
def bnDiv (x y : ℚ) : ℚ := bnDivRound 20 x y

/-- `BigNumber.toFixed(0)`: round half-up to an integer (nonnegative input). -/
def bnToFixed0 (x : ℚ) : ℤ := ⌊x + 1 / 2⌋

/-- `toBN(tokensReceived).div(toBN(10).pow(decimals)).multipliedBy(pricePerShare).toFixed(0)`
(src/unnamed/part_008 lines 221-224 and 362-365). -/
def targetUnderlyingAmount (tokensReceived decimals pricePerShare : ℕ) : ℤ :=
  bnToFixed0 (bnDiv (tokensReceived : ℚ) ((10 : ℚ) ^ decimals) * (pricePerShare : ℚ))

/-! ### The resilience wrapper

`SimulationExecutor.executeSimulationWithReSimulationOnFailure` lives in
`src/simulationExecutor.ts`, which is not part of the provided sources
(only its call sites are). Both wrapper models below carry doc comments
noting this. -/

/-- Events of the generic resilience wrapper model: a producer invocation
(with its attempt index) or a brand-new sandbox allocation. -/
inductive RetryEv where
  | attempt : ℕ → RetryEv
  | newSandbox : RetryEv
deriving Repr, DecidableEq

/-- Modelled from the spec: `executeSimulationWithReSimulationOnFailure` of
the Sandbox Client's resilience wrapper (`src/simulationExecutor.ts`, not
among the provided sources). Per spec section 4.3: first invoke the
producer with `save = false`; if that fails for any reason, allocate
exactly one brand-new sandbox and invoke the producer once more; if the
second attempt also fails, propagate that failure — there is no third
attempt. The producer is indexed by attempt number so that a failure
followed by a success is expressible; the returned trace records the
producer invocations and sandbox allocations in order. -/
def executeSimulationWithReSimulationOnFailure {α : Type} (attempts : ℕ → Except Err α) :
    List RetryEv × Except Err α :=
  match attempts 0 with
  | .ok v => ([.attempt 0], .ok v)
  | .error _ =>
    match attempts 1 with
    | .ok v => ([.attempt 0, .newSandbox, .attempt 1], .ok v)
    | .error e => ([.attempt 0, .newSandbox, .attempt 1], .error e)

/-- Modelled from the spec: the same resilience wrapper specialised to the
deterministic state-passing producers used by the embedded `withdraw` and
zap-in flows (the producer receives the `save` flag and the current
mutable `options` state). Both attempts use `save = false`; a retry
allocates one new sandbox (`Ev.createFork`) before re-invoking the
producer. -/
def execWithRetry {α σ : Type} (produce : Bool → σ → List Ev × Except Err α × σ) (s : σ) :
    List Ev × Except Err α × σ :=
  match produce false s with
  | (t1, .ok v, s1) => (t1, .ok v, s1)
  | (t1, .error _, s1) =>
    match produce false s1 with
    | (t2, r2, s2) => (t1 ++ [Ev.createFork] ++ t2, r2, s2)

/-! ### The current `SimulationInterface` (src/unnamed/part_008) -/

/-- Embeds `depositNeedsApproving`, `approve` and `getApprovalData` of
src/unnamed/part_008 (lines 265-282, 568-585, 587-605): read the on-chain
allowance; when it is below the requested amount, simulate the approval
call via `makeSimulationRequest(from, sellToken, data, { ...options,
save: true })` and only afterwards create a fork. The approval simulation
request carries the caller's original `forkId`/`root` options. -/
def getApprovalData (env : Env) (d : DepositArgs) : List Ev × ApprovalData :=
  let needs := env.allowance d.sellToken d.sender d.toVault < d.amount
  let checkEv := [Ev.allowanceRead d.sellToken d.sender d.toVault]
  if needs then
    (checkEv ++
       [Ev.simRequest d.sender d.sellToken d.options.forkId (some true) d.options.root,
        Ev.createFork],
     { approvalTransactionId := some env.simulationId, forkId := some env.freshForkId })
  else (checkEv, {})

/-- Embeds `directDeposit` of src/unnamed/part_008 (lines 187-237):
simulate the deposit, price the received shares via the oracle, re-express
them in underlying units via decimals and price-per-share, and return the
outcome with `conversionRate: 1, slippage: 0`. -/
def directDeposit (env : Env) (d : DepositArgs) : List Ev × TransactionOutcome :=
  let tokensReceived := env.simOutput
  let dec := env.decimals d.toVault
  let pps := env.pricePerShare d.toVault
  ([Ev.simVault d.sender d.toVault d.toVault d.options.forkId d.options.save d.options.root
      d.options.gasLimit,
    Ev.oracleUsdc d.toVault tokensReceived,
    Ev.vaultDecimalsRead d.toVault, Ev.vaultPpsRead d.toVault],
   { sourceTokenAddress := d.sellToken
     sourceTokenAmount := d.amount
     targetTokenAddress := d.toVault
     targetTokenAmount := tokensReceived
     targetTokenAmountUsdc := (env.oracleUsdc d.toVault tokensReceived : ℤ)
     targetUnderlyingTokenAddress := d.toVault
     targetUnderlyingTokenAmount := targetUnderlyingAmount tokensReceived dec pps
     conversionRate := 1
     slippage := 0 })

/-- Embeds `directWithdraw` of src/unnamed/part_008 (lines 284-321):
simulate the withdrawal and return the outcome with
`conversionRate: 1, slippage: 0`. -/
def directWithdraw (env : Env) (sender toToken : Addr) (amount : ℕ) (fromVault : Addr)
    (options : SimulationOptions) : List Ev × TransactionOutcome :=
  let tokensReceived := env.simOutput
  ([Ev.simVault sender fromVault toToken options.forkId options.save options.root options.gasLimit,
    Ev.oracleUsdc toToken tokensReceived],
   { sourceTokenAddress := fromVault
     sourceTokenAmount := amount
     targetTokenAddress := toToken
     targetTokenAmount := tokensReceived
     targetTokenAmountUsdc := (env.oracleUsdc toToken tokensReceived : ℤ)
     targetUnderlyingTokenAddress := toToken
     targetUnderlyingTokenAmount := (tokensReceived : ℤ)
     conversionRate := 1
     slippage := 0 })

/-- `sellToken === EthAddress ? ZeroAddress : sellToken` (part_008 line 332). -/
def zapTokenOf (sellToken : Addr) : Addr := if sellToken = EthAddress then ZeroAddress else sellToken

/-- Embeds `zapIn` of src/unnamed/part_008 (lines 323-412): check slippage,
get the Zapper quote (with `skipGasEstimate`), default `gasPrice` from the
quote and take the quote's `gas` as `gasLimit` when gas estimation was not
skipped, simulate, price the result (oracle for Yearn vaults, Pickle spot
price otherwise), and compute `conversionRate` as received USD over sold
USD with `slippage = 1 - conversionRate`. Returns the trace, the result
and the final state of the (locally mutated) options. -/
def zapIn (env : Env) (d : DepositArgs) (u : UnderlyingToken) (skipGasEstimate : Bool) :
    List Ev × Except Err TransactionOutcome × SimulationOptions :=
  let opts := d.options
  if numFalsy opts.slippage then ([], .error .noSlippage, opts)
  else
    let zapToken := zapTokenOf d.sellToken
    let q := env.zapInParams
    let opts1 := { opts with gasPrice := if strFalsy opts.gasPrice then some q.gasPrice else opts.gasPrice }
    let opts2 := if skipGasEstimate then opts1 else { opts1 with gasLimit := some q.gas }
    let tokensReceived := env.simOutput
    let amountReceivedUsdc : ℚ :=
      if env.protoPickle d.toVault then
        bnDiv (env.pickleUsdc d.toVault : ℚ) ((10 : ℚ) ^ u.decimals) * (tokensReceived : ℚ)
      else (env.oracleUsdc d.toVault tokensReceived : ℚ)
    let priceEv :=
      if env.protoPickle d.toVault then [Ev.pickleUsdc d.toVault]
      else [Ev.oracleUsdc d.toVault tokensReceived]
    let oracleToken := if d.sellToken = EthAddress then WethAddress else d.sellToken
    let zapInAmountUsdc := env.oracleUsdc oracleToken d.amount
    let conversionRate := bnDiv amountReceivedUsdc (zapInAmountUsdc : ℚ)
    ([Ev.zapInQuote d.sender zapToken d.amount d.toVault skipGasEstimate,
      Ev.simVault d.sender q.target d.toVault opts2.forkId opts2.save opts2.root opts2.gasLimit] ++
       priceEv ++ [Ev.oracleUsdc oracleToken d.amount],
     .ok
       { sourceTokenAddress := d.sellToken
         sourceTokenAmount := d.amount
         targetTokenAddress := q.buyTokenAddress
         targetTokenAmount := tokensReceived
         targetTokenAmountUsdc := bnToFixed0 amountReceivedUsdc
         targetUnderlyingTokenAddress := u.address
         targetUnderlyingTokenAmount := targetUnderlyingAmount tokensReceived u.decimals u.pricePerShare
         conversionRate := conversionRate
         slippage := 1 - conversionRate },
     opts2)

/-- Embeds `zapOut` of src/unnamed/part_008 (lines 414-485): check
slippage, get the Zapper quote, take the quote's `gas` as `gasLimit` when
gas estimation was not skipped, simulate (a raw simulation request for a
native-token output, a vault-interaction simulation otherwise), price both
sides via the oracle and compute `conversionRate` and `slippage`. -/
def zapOut (env : Env) (sender toToken underlying : Addr) (amount : ℕ) (fromVault : Addr)
    (skipGasEstimate : Bool) (options : SimulationOptions) :
    List Ev × Except Err TransactionOutcome × SimulationOptions :=
  if numFalsy options.slippage then ([], .error .noSlippage, options)
  else
    let zapToken := if toToken = EthAddress then ZeroAddress else toToken
    let q := env.zapOutParams
    let opts1 := if skipGasEstimate then options else { options with gasLimit := some q.gas }
    let simEv :=
      if zapToken = ZeroAddress then
        [Ev.simRequest sender q.target opts1.forkId opts1.save opts1.root]
      else [Ev.simVault sender q.target toToken opts1.forkId opts1.save opts1.root opts1.gasLimit]
    let tokensReceived := env.simOutput
    let oracleToken := if toToken = EthAddress then WethAddress else toToken
    let zapOutAmountUsdc := env.oracleUsdc oracleToken tokensReceived
    let soldAssetAmountUsdc := env.oracleUsdc fromVault amount
    let conversionRate := bnDiv (zapOutAmountUsdc : ℚ) (soldAssetAmountUsdc : ℚ)
    ([Ev.zapOutQuote sender zapToken amount fromVault skipGasEstimate] ++ simEv ++
       [Ev.oracleUsdc oracleToken tokensReceived, Ev.oracleUsdc fromVault amount],
     .ok
       { sourceTokenAddress := fromVault
         sourceTokenAmount := amount
         targetTokenAddress := toToken
         targetTokenAmount := tokensReceived
         targetTokenAmountUsdc := (zapOutAmountUsdc : ℤ)
         targetUnderlyingTokenAddress := underlying
         targetUnderlyingTokenAmount := (tokensReceived : ℤ)
         conversionRate := conversionRate
         slippage := 1 - conversionRate },
     opts1)

/-- `needsApproving` of the zap path of `withdraw` (part_008 lines
129-140): `false` for the native pseudo-vault, otherwise the negation of
the Zapper zap-out approval state. -/
def withdrawNeedsApproving (env : Env) (sender fromVault : Addr) : Bool :=
  if fromVault = EthAddress then false else !env.zapOutApproved sender fromVault

/-- Embeds `withdraw` of src/unnamed/part_008 (lines 111-169): read the
vault's underlying token, classify the path; on the zap path check
slippage, resolve the zap-out approval (fork plus approval simulation with
`save: true` when approval is missing, mutating `options.forkId` and
`options.root` in place), and run `zapOut` under the resilience wrapper;
on the direct path run `directWithdraw` under the wrapper. Returns the
trace, the result and the final state of the caller's `options` object. -/
def withdraw (env : Env) (sender fromVault : Addr) (amount : ℕ) (toToken : Addr)
    (options : SimulationOptions) : List Ev × Except Err TransactionOutcome × SimulationOptions :=
  let ev0 := [Ev.vaultTokenRead fromVault]
  let underlyingToken := env.vaultToken fromVault
  if underlyingToken ≠ env.getAddress toToken then
    if numFalsy options.slippage then (ev0, .error .noSlippage, options)
    else
      let needsApproving := withdrawNeedsApproving env sender fromVault
      let evA := if fromVault = EthAddress then [] else [Ev.zapOutApprovalState sender fromVault]
      let evF := if needsApproving then [Ev.createFork] else []
      let opts1 := { options with forkId := if needsApproving then some env.freshForkId else none }
      let evApp :=
        if needsApproving then
          [Ev.zapOutApprovalTransaction sender fromVault,
           Ev.simRequest env.zapOutApprovalTx.txFrom env.zapOutApprovalTx.txTo opts1.forkId
             (some true) opts1.root]
        else []
      let opts2 := { opts1 with root := if needsApproving then some env.simulationId else none }
      let (evS, res, opts3) :=
        execWithRetry
          (fun save opts =>
            zapOut env sender toToken underlyingToken amount fromVault needsApproving
              { opts with save := some save })
          opts2
      (ev0 ++ evA ++ evF ++ evApp ++ evS, res, opts3)
  else
    let (evS, res, opts3) :=
      execWithRetry
        (fun save opts =>
          let o := { opts with save := some save }
          let (e, out) := directWithdraw env sender toToken amount fromVault o
          (e, .ok out, o))
        options
    (ev0 ++ evS, res, opts3)

/-- Embeds `getZapperZapInApprovalData` of src/unnamed/part_008 (lines
491-535): native sources need no approval; otherwise query the Zapper
zap-in approval state and, when approval is missing, create a fork and
simulate the approval via `makeSimulationRequest` with `{ ...options,
save: true }` — the request carries the caller's original `forkId`/`root`
options, not the freshly created fork. -/
def getZapperZapInApprovalData (env : Env) (d : DepositArgs) :
    List Ev × Except Err (Bool × ApprovalData) :=
  if !env.isEth then ([], .error (.sdk "Zapper unsupported for chainId"))
  else if d.sellToken = EthAddress then ([], .ok (false, {}))
  else
    let ev1 := [Ev.zapInApprovalState d.sender d.sellToken]
    if env.zapInApproved d.sender d.sellToken then (ev1, .ok (false, {}))
    else
      (ev1 ++
         [Ev.createFork, Ev.zapInApprovalTransaction d.sender d.sellToken,
          Ev.simRequest env.zapInApprovalTx.txFrom env.zapInApprovalTx.txTo d.options.forkId
            (some true) d.options.root],
       .ok (true, { approvalTransactionId := some env.simulationId, forkId := some env.freshForkId }))

/-- `needsApproving` as computed by `getZapperZapInApprovalData`. -/
def zapInNeedsApproving (env : Env) (d : DepositArgs) : Bool :=
  if d.sellToken = EthAddress then false else !env.zapInApproved d.sender d.sellToken

/-- Embeds `getZapperZapInSimulationArgs` of src/unnamed/part_008 (lines
537-566) up to the construction of `simulateFn`: chain check, then the
slippage check, then approval resolution. -/
def getZapperZapInSimulationArgs (env : Env) (d : DepositArgs) :
    List Ev × Except Err (Bool × ApprovalData) :=
  if !env.isEth then ([], .error (.sdk "Zapper unsupported for chainId"))
  else if numFalsy d.options.slippage then ([], .error .noSlippage)
  else getZapperZapInApprovalData env d

/-- The deposit arguments built by the `simulateFn` closure of
`getZapperZapInSimulationArgs` (part_008 lines 554-563): the caller's
arguments with `{ ...depositArgs.options, forkId, save, root:
approvalTransactionId }`. -/
def withZapOptions (d : DepositArgs) (ad : ApprovalData) (save : Bool) : DepositArgs :=
  { d with options :=
    { d.options with forkId := ad.forkId, save := some save,
                     root := ad.approvalTransactionId } }

/-- Embeds the `zapperZapIn` branch of `handleZapInSimulationDeposit`
(src/unnamed/part_008 lines 617-624) given the already-fetched underlying
token: `getZapperZapInSimulationArgs` followed by the produced
`simulateFn` — which invokes `zapIn` with the approval data's `forkId`,
`root := approvalTransactionId` and `skipGasEstimate := needsApproving` —
run under the resilience wrapper. -/
def zapperZapInSimulation (env : Env) (d : DepositArgs) (u : UnderlyingToken) :
    List Ev × Except Err TransactionOutcome :=
  match getZapperZapInSimulationArgs env d with
  | (ev, .error e) => (ev, .error e)
  | (ev, .ok (needsApproving, ad)) =>
    let (evS, r, _) :=
      execWithRetry
        (fun save _ =>
          let (e2, r2, o2) := zapIn env (withZapOptions d ad save) u needsApproving
          (e2, r2, o2))
        d.options
    (ev ++ evS, r)

/-! ### The older `SimulationInterface` (src/unnamed/part_009) -/

/-- Embeds the zap-path approval phase of the older `deposit`
(src/unnamed/part_009 lines 59-86): determine `needsApproving` (always
`false` for a native source, otherwise via the Zapper approval state),
create a fork exactly when approval is needed and store it in
`options.forkId`, then — when approval is needed — simulate the approval
transaction through `simulateZapApprovalTransaction` (which sets
`options.save = true`) and store the returned simulation id in
`options.root`. Returns the trace, `needsApproving`, and the mutated
options. -/
def depositZapApprovalPhase (env : Env) (sender sellToken : Addr) (options : SimulationOptions) :
    List Ev × Bool × SimulationOptions :=
  let needsApproving :=
    if sellToken = EthAddress then false else !env.zapInApproved sender sellToken
  let evA := if sellToken = EthAddress then [] else [Ev.zapInApprovalState sender sellToken]
  let evF := if needsApproving then [Ev.createFork] else []
  let opts1 := { options with forkId := if needsApproving then some env.freshForkId else none }
  let opts2 := if needsApproving then { opts1 with save := some true } else opts1
  let evApp :=
    if needsApproving then
      [Ev.zapInApprovalTransaction sender sellToken,
       Ev.simRequest env.zapInApprovalTx.txFrom env.zapInApprovalTx.txTo opts2.forkId (some true)
         opts2.root]
    else []
  let opts3 := { opts2 with root := if needsApproving then some env.simulationId else none }
  (evA ++ evF ++ evApp, needsApproving, opts3)

/-- Embeds `zapIn` of the older src/unnamed/part_009 (lines 269-365):
compute the zap token, check slippage, get the Zapper quote (with
`options.gasPrice || "0"` and `skipGasEstimate`), then mutate the
caller's options in place — `options.gasPrice = options.gasPrice ||
zapInParams.gasPrice` and, when gas estimation was not skipped,
`options.gasLimit = zapInParams.gas` — simulate, read the vault's
decimals and price-per-share, price the result (oracle for Yearn,
Pickle spot price otherwise, per the `zapProtocol` derived from
`PickleJars.includes`, modelled by `protoPickle`), and compute
`conversionRate` with `slippage = 1 - conversionRate`. Returns the
trace, the result and the final state of the caller's options. -/
def zapIn909 (env : Env) (sender sellToken underlyingTokenAddress : Addr) (amount : ℕ)
    (toVault : Addr) (protoPickle skipGasEstimate : Bool) (options : SimulationOptions) :
    List Ev × Except Err TransactionOutcome × SimulationOptions :=
  let zapToken := if sellToken = EthAddress then ZeroAddress else sellToken
  if numFalsy options.slippage then ([], .error .noSlippage, options)
  else
    let q := env.zapInParams
    let opts1 := { options with
      gasPrice := if strFalsy options.gasPrice then some q.gasPrice else options.gasPrice }
    let opts2 := if skipGasEstimate then opts1 else { opts1 with gasLimit := some q.gas }
    let tokensReceived := env.simOutput
    let dec := env.decimals toVault
    let pps := env.pricePerShare toVault
    let amountReceivedUsdc : ℚ :=
      if protoPickle then
        bnDiv (env.pickleUsdc toVault : ℚ) ((10 : ℚ) ^ dec) * (tokensReceived : ℚ)
      else (env.oracleUsdc toVault tokensReceived : ℚ)
    let priceEv := if protoPickle then [Ev.pickleUsdc toVault]
      else [Ev.oracleUsdc toVault tokensReceived]
    let oracleToken := if sellToken = EthAddress then WethAddress else sellToken
    let conversionRate := bnDiv amountReceivedUsdc ((env.oracleUsdc oracleToken amount : ℕ) : ℚ)
    ([Ev.zapInQuote sender zapToken amount toVault skipGasEstimate,
      Ev.simVault sender q.target toVault opts2.forkId opts2.save opts2.root opts2.gasLimit,
      Ev.vaultDecimalsRead toVault, Ev.vaultPpsRead toVault] ++
       priceEv ++ [Ev.oracleUsdc oracleToken amount],
     .ok
       { sourceTokenAddress := sellToken
         sourceTokenAmount := amount
         targetTokenAddress := q.buyTokenAddress
         targetTokenAmount := tokensReceived
         targetTokenAmountUsdc := bnToFixed0 amountReceivedUsdc
         targetUnderlyingTokenAddress := underlyingTokenAddress
         targetUnderlyingTokenAmount := targetUnderlyingAmount tokensReceived dec pps
         conversionRate := conversionRate
         slippage := 1 - conversionRate },
     opts2)

/-- Embeds `directDeposit` of the older src/unnamed/part_009 (lines
219-267): simulate the deposit against the vault, price the received
shares via the oracle, read decimals and price-per-share, and return the
outcome with `conversionRate: 1, slippage: 0`. -/
def directDeposit909 (env : Env) (sender sellToken : Addr) (amount : ℕ) (toVault : Addr)
    (options : SimulationOptions) : List Ev × TransactionOutcome :=
  let tokensReceived := env.simOutput
  let dec := env.decimals toVault
  let pps := env.pricePerShare toVault
  ([Ev.simVault sender toVault toVault options.forkId options.save options.root options.gasLimit,
    Ev.oracleUsdc toVault tokensReceived,
    Ev.vaultDecimalsRead toVault, Ev.vaultPpsRead toVault],
   { sourceTokenAddress := sellToken
     sourceTokenAmount := amount
     targetTokenAddress := toVault
     targetTokenAmount := tokensReceived
     targetTokenAmountUsdc := (env.oracleUsdc toVault tokensReceived : ℤ)
     targetUnderlyingTokenAddress := toVault
     targetUnderlyingTokenAmount := targetUnderlyingAmount tokensReceived dec pps
     conversionRate := 1
     slippage := 0 })

/-- `needsApproving` of the zap path of the older `deposit`
(src/unnamed/part_009 lines 59-70): `false` for a native source,
otherwise the negation of the Zapper zap-in approval state. -/
def deposit909NeedsApproving (env : Env) (sender sellToken : Addr) : Bool :=
  if sellToken = EthAddress then false else !env.zapInApproved sender sellToken

/-- Embeds the older `deposit` of src/unnamed/part_009 (lines 33-119):
read the vault's underlying token, classify by `underlyingToken !==
sellToken`; on the zap path check slippage, run the approval phase
(`depositZapApprovalPhase`, mutating `options.forkId`, `options.save`
and `options.root` in place) and `zapIn909` under the resilience
wrapper; on the direct path check the on-chain allowance, create a fork
and simulate the approval (via `approve`, which sets
`options.save = true`) when the allowance is insufficient, then run
`directDeposit909` under the wrapper. Returns the trace, the result and
the final state of the caller's options object. -/
def deposit909 (env : Env) (sender sellToken : Addr) (amount : ℕ) (toVault : Addr)
    (options : SimulationOptions) : List Ev × Except Err TransactionOutcome × SimulationOptions :=
  let ev0 := [Ev.vaultTokenRead toVault]
  let underlyingToken := env.vaultToken toVault
  if underlyingToken ≠ sellToken then
    if numFalsy options.slippage then (ev0, .error .noSlippage, options)
    else
      let (evA, needsApproving, opts3) := depositZapApprovalPhase env sender sellToken options
      let (evS, res, opts4) :=
        execWithRetry
          (fun save opts =>
            zapIn909 env sender sellToken underlyingToken amount toVault
              (env.protoPickle toVault) needsApproving { opts with save := some save })
          opts3
      (ev0 ++ evA ++ evS, res, opts4)
  else
    let needs := env.allowance sellToken sender toVault < amount
    let evN := [Ev.allowanceRead sellToken sender toVault]
    let evF := if needs then [Ev.createFork] else []
    let opts1 := { options with forkId := if needs then some env.freshForkId else none }
    let opts2 := if needs then { opts1 with save := some true } else opts1
    let evApp :=
      if needs then [Ev.simRequest sender sellToken opts2.forkId (some true) opts2.root] else []
    let opts3 := { opts2 with root := if needs then some env.simulationId else none }
    let (evS, res, opts4) :=
      execWithRetry
        (fun save opts =>
          let o := { opts with save := some save }
          let (e, out) := directDeposit909 env sender sellToken amount toVault o
          (e, .ok out, o))
        opts3
    (ev0 ++ evN ++ evF ++ evApp ++ evS, res, opts4)

/-! ### The legacy `SimulationService` (src/services/simulation.ts) -/

/-- Embeds `zapIn` of the legacy src/services/simulation.ts (lines
199-254): get the Zapper quote, simulate, re-express the received amount
in underlying units with a hard-coded `10^18` scale, then price both sides
via the oracle. Note the oracle calls: `zapInAmountUsdc` is requested for
`(token, assetTokensReceived)` and `boughtAssetAmountUsdc` for
`(vault, amount)`, and `conversionRate = boughtAssetAmountUsdc /
zapInAmountUsdc`. -/
def legacyZapIn (env : Env) (sender token : Addr) (amount : ℕ) (vault underlying : Addr) :
    LegacyOutcome :=
  let assetTokensReceived := env.simOutput
  let pps := env.pricePerShare vault
  let targetUnderlyingTokensReceived :=
    bnToFixed0 (bnDiv ((assetTokensReceived : ℚ) * (pps : ℚ)) ((10 : ℚ) ^ (18 : ℕ)))
  let zapInAmountUsdc := env.oracleUsdc token assetTokensReceived
  let boughtAssetAmountUsdc := env.oracleUsdc vault amount
  let conversionRate := bnDiv (boughtAssetAmountUsdc : ℚ) (zapInAmountUsdc : ℚ)
  { sourceTokenAddress := token
    sourceTokenAmount := amount
    targetTokenAddress := env.zapInParams.buyTokenAddress
    targetTokenAmount := assetTokensReceived
    targetUnderlyingTokenAddress := underlying
    targetUnderlyingTokenAmount := targetUnderlyingTokensReceived
    conversionRate := conversionRate
    slippage := 1 - conversionRate }

/-! ### Concrete environments and requests used in witnesses and counterexamples -/

/-- A deterministic environment: Ethereum chain, every vault's underlying
token is `0xUNDERLYING` with 18 decimals and price-per-share
`1.05 * 10^18`, allowances are ample, zap approvals are already granted,
the simulation backend mints 950 tokens, and the oracle prices every token
at face value. -/
def envA : Env :=
  { isEth := true
    getAddress := id
    vaultToken := fun _ => "0xUNDERLYING"
    decimals := fun _ => 18
    pricePerShare := fun _ => 1050000000000000000
    allowance := fun _ _ _ => 1000000
    zapInApproved := fun _ _ => true
    zapOutApproved := fun _ _ => true
    zapInApprovalTx := ⟨"0xAF", "0xAT"⟩
    zapOutApprovalTx := ⟨"0xBF", "0xBT"⟩
    freshForkId := 7
    simulationId := 11
    simOutput := 950
    zapInParams := ⟨"0xZAPIN", 0, 123, 5, "0xBUY"⟩
    zapOutParams := ⟨"0xZAPOUT", 0, 456, 9, "0xBUYOUT"⟩
    oracleUsdc := fun _ n => n
    pickleUsdc := fun _ => 0
    protoPickle := fun _ => false }

/-- `envA` with a zero allowance and no zap approvals: every transfer needs
an approval step. -/
def envNeedsApproval : Env :=
  { envA with
      allowance := fun _ _ _ => 0
      zapInApproved := fun _ _ => false
      zapOutApproved := fun _ _ => false }

/-- `envA` with the simulation backend returning 500 tokens and an oracle
that prices the vault token at 2 USDC per unit and every other token at 1:
a deposit of 1000 sell tokens returning 500 vault shares is worth 1000 USD
on both sides, so the true conversion rate is 1. -/
def envSwap : Env :=
  { envA with
      simOutput := 500
      oracleUsdc := fun a n => if a = "0xVAULT" then 2 * n else n }

/-- A deposit request of 1000 units of `0xTOKEN` into `0xVAULT` with
default (empty) options. -/
def dArgs : DepositArgs := ⟨"0xME", "0xTOKEN", 1000, "0xVAULT", {}⟩

/-- `dArgs` with a nonzero slippage tolerance. -/
def dSlip : DepositArgs := ⟨"0xME", "0xTOKEN", 1000, "0xVAULT", { slippage := some 1 }⟩

/-- `dArgs` with a slippage tolerance equal to 0. -/
def dZero : DepositArgs := ⟨"0xME", "0xTOKEN", 1000, "0xVAULT", { slippage := some 0 }⟩

/-- A native-token (gas token) deposit request with a 1% slippage
tolerance. -/
def dNative : DepositArgs := ⟨"0xME", EthAddress, 1000, "0xVAULT", { slippage := some 1 }⟩

/-- Caller options with every field populated, to observe which fields a
call overwrites. -/
def optsFull : SimulationOptions :=
  { slippage := some 1, forkId := some 42, root := some 5, save := some true,
    gasPrice := some 3, gasLimit := some 4 }

/-- Caller options with every field populated except `gasPrice`, to
observe the older deposit's `gasPrice` defaulting from the quote. -/
def optsNoGasPrice : SimulationOptions :=
  { slippage := some 1, forkId := some 42, root := some 5, save := some true,
    gasPrice := none, gasLimit := some 4 }

/-- The underlying-token record fetched by `getUnderlyingToken` under
`envA`. -/
def uTok : UnderlyingToken := ⟨"0xUNDERLYING", 18, 1050000000000000000⟩

/-- An attempt sequence whose every simulation attempt fails. -/
def attemptsW : ℕ → Except Err ℕ := fun _ => .error .noSlippage

/-! ### Derived views of the zap-in flow, used to state trace properties -/

/-- The network events issued by `getZapperZapInApprovalData`. -/
def zapInApprovalTrace (env : Env) (d : DepositArgs) : List Ev :=
  (getZapperZapInApprovalData env d).1

/-- The `ApprovalData` produced by `getZapperZapInApprovalData`: a
simulation id and fork exactly when approval is needed. -/
def zapInApprovalInfo (env : Env) (d : DepositArgs) : ApprovalData :=
  if zapInNeedsApproving env d then ⟨some env.simulationId, some env.freshForkId⟩ else {}

/-- The deposit arguments passed to `zapIn` by the `simulateFn` closure of
`getZapperZapInSimulationArgs` on the first (non-saving) attempt: the
caller's arguments with `forkId`, `root` and `save := false` injected. -/
def dPrimed (env : Env) (d : DepositArgs) : DepositArgs :=
  withZapOptions d (zapInApprovalInfo env d) false

/-- The token whose USD value prices the sold side of a zap-in
(`sellToken === EthAddress ? WethAddress : sellToken`). -/
def zapInOracleToken (sellToken : Addr) : Addr :=
  if sellToken = EthAddress then WethAddress else sellToken

/-- `amountReceivedUsdc` of `zapIn`: oracle value for Yearn vaults, Pickle
spot price scaled by decimals otherwise. -/
def zapInReceivedUsdc (env : Env) (d : DepositArgs) (u : UnderlyingToken) : ℚ :=
  if env.protoPickle d.toVault then
    bnDiv (env.pickleUsdc d.toVault : ℚ) ((10 : ℚ) ^ u.decimals) * (env.simOutput : ℚ)
  else (env.oracleUsdc d.toVault env.simOutput : ℚ)

/-- The pricing events issued by `zapIn` for the received side. -/
def zapInPriceEvents (env : Env) (d : DepositArgs) : List Ev :=
  if env.protoPickle d.toVault then [Ev.pickleUsdc d.toVault]
  else [Ev.oracleUsdc d.toVault env.simOutput]

/-- The conversion rate computed by `zapIn`. -/
def zapInRate (env : Env) (d : DepositArgs) (u : UnderlyingToken) : ℚ :=
  bnDiv (zapInReceivedUsdc env d u) ((env.oracleUsdc (zapInOracleToken d.sellToken) d.amount : ℕ) : ℚ)

/-- The outcome returned by a successful `zapIn`. -/
def zapInOutcome (env : Env) (d : DepositArgs) (u : UnderlyingToken) : TransactionOutcome :=
  { sourceTokenAddress := d.sellToken
    sourceTokenAmount := d.amount
    targetTokenAddress := env.zapInParams.buyTokenAddress
    targetTokenAmount := env.simOutput
    targetTokenAmountUsdc := bnToFixed0 (zapInReceivedUsdc env d u)
    targetUnderlyingTokenAddress := u.address
    targetUnderlyingTokenAmount := targetUnderlyingAmount env.simOutput u.decimals u.pricePerShare
    conversionRate := zapInRate env d u
    slippage := 1 - zapInRate env d u }

/-- The final state of the options record mutated by `zapIn`: `gasPrice`
defaulted from the quote, and `gasLimit` taken from the quote exactly when
gas estimation was not skipped. -/
def zapInFinalOptions (env : Env) (d : DepositArgs) (skip : Bool) : SimulationOptions :=
  let opts1 := { d.options with
    gasPrice := if strFalsy d.options.gasPrice then some env.zapInParams.gasPrice
                else d.options.gasPrice }
  if skip then opts1 else { opts1 with gasLimit := some env.zapInParams.gas }

/-! ### Claims -/

/-- C1: for every direct (non-routed) deposit or withdraw that completes,
the returned `TransactionOutcome` has `conversionRate = 1` and
`slippage = 0`, independent of the environment — in particular of any
value returned by the price oracle. -/
theorem direct_outcomes_rate_one_slippage_zero (env : Env) (d : DepositArgs)
    (sender toToken : Addr) (amount : ℕ) (fromVault : Addr) (options : SimulationOptions) :
    (directDeposit env d).2.conversionRate = 1 ∧ (directDeposit env d).2.slippage = 0 ∧
    (directWithdraw env sender toToken amount fromVault options).2.conversionRate = 1 ∧
    (directWithdraw env sender toToken amount fromVault options).2.slippage = 0 :=
  ⟨rfl, rfl, rfl, rfl⟩

/-- C2: if the first simulation attempt fails, the resilience wrapper
allocates exactly one brand-new sandbox and re-invokes the producer
exactly once; the second attempt's result (in particular a second
failure) is returned as is, and the outcome does not depend on any
attempt beyond the second — there is no third attempt. -/
theorem resimulation_retry_bound {α : Type} (attempts : ℕ → Except Err α) (e₁ : Err)
    (h : attempts 0 = .error e₁) :
    (executeSimulationWithReSimulationOnFailure attempts).1 =
        [RetryEv.attempt 0, RetryEv.newSandbox, RetryEv.attempt 1] ∧
    ((executeSimulationWithReSimulationOnFailure attempts).1.count RetryEv.newSandbox = 1) ∧
    (executeSimulationWithReSimulationOnFailure attempts).2 = attempts 1 ∧
    ∀ g : ℕ → Except Err α, g 0 = attempts 0 → g 1 = attempts 1 →
      executeSimulationWithReSimulationOnFailure g =
        executeSimulationWithReSimulationOnFailure attempts := by
  have main : ∀ g : ℕ → Except Err α, g 0 = attempts 0 → g 1 = attempts 1 →
      executeSimulationWithReSimulationOnFailure g =
        executeSimulationWithReSimulationOnFailure attempts := by
    intro g hg0 hg1
    unfold executeSimulationWithReSimulationOnFailure
    rw [hg0, hg1]
  refine ⟨?_, ?_, ?_, main⟩ <;>
    · unfold executeSimulationWithReSimulationOnFailure
      rw [h]
      cases h2 : attempts 1 <;> simp [List.count_cons]

/-- C2 witness: with a producer that fails on every attempt, the wrapper
returns the second attempt's failure after exactly the trace
first-attempt, new-sandbox, second-attempt. -/
theorem resimulation_retry_bound_witness :
    attemptsW 0 = .error .noSlippage ∧
    (executeSimulationWithReSimulationOnFailure attemptsW).1 =
      [RetryEv.attempt 0, RetryEv.newSandbox, RetryEv.attempt 1] ∧
    (executeSimulationWithReSimulationOnFailure attemptsW).2 = attemptsW 1 :=
  ⟨rfl, (resimulation_retry_bound attemptsW .noSlippage rfl).1,
    (resimulation_retry_bound attemptsW .noSlippage rfl).2.2.1⟩

/-- C3: evaluation of the legacy `zapIn` of src/services/simulation.ts at
a concrete input on which it violates the claim. Under `envSwap` the
destination USD value is `oracleUsdc(vault, 500) = 1000` and the source
USD value is `oracleUsdc(token, 1000) = 1000`, so the claimed conversion
rate (destination USD over source USD) is 1 — but the function passes the
source amount to the vault price lookup and the received amount to the
sell-token price lookup, and returns conversion rate 4. -/
theorem legacy_zapIn_conversionRate_swapped :
    (legacyZapIn envSwap "0xME" "0xTOKEN" 1000 "0xVAULT" "0xUNDERLYING").targetTokenAmount = 500 ∧
    (legacyZapIn envSwap "0xME" "0xTOKEN" 1000 "0xVAULT" "0xUNDERLYING").conversionRate = 4 ∧
    bnDiv (envSwap.oracleUsdc "0xVAULT" 500 : ℚ) (envSwap.oracleUsdc "0xTOKEN" 1000 : ℚ) = 1 ∧
    (4 : ℚ) ≠ 1 := by
  have hne : ("0xTOKEN" : String) ≠ "0xVAULT" := by decide
  have hvv : ("0xVAULT" : String) = "0xVAULT" := rfl
  refine ⟨rfl, ?_, ?_, by norm_num⟩
  · show bnDiv (envSwap.oracleUsdc "0xVAULT" 1000 : ℚ) (envSwap.oracleUsdc "0xTOKEN" 500 : ℚ) = 4
    norm_num [envSwap, envA, bnDiv, bnDivRound, if_pos hvv, if_neg hne]
  · norm_num [envSwap, envA, bnDiv, bnDivRound, if_pos hvv, if_neg hne]

/-- C6: a transfer whose source asset is the native gas token never
queries approval state and never allocates a sandbox for approval
purposes: `getZapperZapInApprovalData` (part_008) returns immediately
with no network events and `needsApproving = false`, and the older
deposit's zap approval phase (part_009) likewise issues no events, leaving
`forkId` and `root` unset. -/
theorem native_source_skips_approval (env : Env) (d : DepositArgs) (sender : Addr)
    (options : SimulationOptions) (heth : env.isEth = true) (hnative : d.sellToken = EthAddress) :
    getZapperZapInApprovalData env d = ([], .ok (false, {})) ∧
    depositZapApprovalPhase env sender EthAddress options =
      ([], false, { options with forkId := none, root := none }) := by
  constructor
  · simp [getZapperZapInApprovalData, heth, hnative]
  · simp [depositZapApprovalPhase]

/-- C6 witness: the native-source deposit request `dNative` under `envA`. -/
theorem native_source_skips_approval_witness :
    envA.isEth = true ∧ dNative.sellToken = EthAddress ∧
    getZapperZapInApprovalData envA dNative = ([], .ok (false, {})) ∧
    depositZapApprovalPhase envA "0xME" EthAddress {} =
      ([], false, { forkId := none, root := none }) := by
  have h := native_source_skips_approval envA dNative "0xME" {} rfl rfl
  exact ⟨rfl, rfl, h.1, h.2⟩

/-- C4 counterexample: a routed withdraw with the slippage tolerance
omitted does make a network call before the missing-slippage error is
raised — the vault-contract read of the underlying token, needed to
classify the path, has already been issued when the error is thrown. -/
theorem withdraw_missing_slippage_network_call_counterexample :
    withdraw envA "0xME" "0xVAULT" 100 "0xDAI" {} =
      ([Ev.vaultTokenRead "0xVAULT"], .error .noSlippage, {}) ∧
    ([Ev.vaultTokenRead "0xVAULT"] : List Ev) ≠ [] := by
  constructor
  · rfl
  · simp

/-- C4 amended: for a routed deposit or withdraw whose options carry a
falsy slippage tolerance, the missing-slippage error is raised before any
approval query, sandbox creation, simulation request or route-provider
call — the only prior network traffic is the vault-contract read used to
classify the path (`withdraw`), respectively the vault metadata fetched
before `getZapperZapInSimulationArgs`, whose own trace is empty. -/
theorem missing_slippage_raised_before_approval_and_simulation (env : Env)
    (sender fromVault : Addr) (amount : ℕ) (toToken : Addr) (options : SimulationOptions)
    (d : DepositArgs) (hzap : env.vaultToken fromVault ≠ env.getAddress toToken)
    (hs : numFalsy options.slippage = true) (hds : numFalsy d.options.slippage = true)
    (heth : env.isEth = true) :
    withdraw env sender fromVault amount toToken options =
      ([Ev.vaultTokenRead fromVault], .error .noSlippage, options) ∧
    getZapperZapInSimulationArgs env d = ([], .error .noSlippage) := by
  constructor
  · simp [withdraw, hzap, hs]
  · simp [getZapperZapInSimulationArgs, heth, hds]

/-- C4 amended witness: concrete routed withdraw and deposit requests with
a missing slippage tolerance. -/
theorem missing_slippage_raised_before_approval_and_simulation_witness :
    envA.vaultToken "0xVAULT" ≠ envA.getAddress "0xDAI" ∧
    numFalsy (SimulationOptions.slippage {}) = true ∧
    numFalsy dArgs.options.slippage = true ∧ envA.isEth = true ∧
    withdraw envA "0xME" "0xVAULT" 100 "0xDAI" {} =
      ([Ev.vaultTokenRead "0xVAULT"], .error .noSlippage, {}) ∧
    getZapperZapInSimulationArgs envA dArgs = ([], .error .noSlippage) := by
  have h := missing_slippage_raised_before_approval_and_simulation envA "0xME" "0xVAULT" 100
    "0xDAI" {} dArgs (by decide) rfl rfl rfl
  exact ⟨by decide, rfl, rfl, rfl, h.1, h.2⟩

/-- C5: evaluation of `getApprovalData` (part_008) at a deposit whose
allowance is insufficient: the approval call is simulated with
`save = true` but with the caller's (empty) `forkId` — not against any
sandbox — and the fork later returned as the transfer's sandbox is only
created after the approval simulation, as the trace order shows. -/
theorem getApprovalData_fork_after_approval_simulation :
    getApprovalData envNeedsApproval dArgs =
      ([Ev.allowanceRead "0xTOKEN" "0xME" "0xVAULT",
        Ev.simRequest "0xME" "0xTOKEN" none (some true) none,
        Ev.createFork],
       { approvalTransactionId := some 11, forkId := some 7 }) ∧
    (getApprovalData envNeedsApproval dArgs).1.get? 1 =
      some (Ev.simRequest "0xME" "0xTOKEN" none (some true) none) ∧
    (getApprovalData envNeedsApproval dArgs).1.get? 2 = some Ev.createFork := by
  refine ⟨?_, rfl, rfl⟩
  rfl

/-- C7 counterexample: for the spec's own scenario — a direct deposit
where the sandbox reports 950 shares minted, price-per-share
`1.05 * 10^18` and 18 decimals — the engine computes underlying amount
998, not `floor(950 * 1.05) = 997`: `BigNumber.toFixed(0)` rounds
half-up, it does not truncate toward zero. -/
theorem direct_deposit_underlying_rounds_half_up_counterexample :
    (directDeposit envA dArgs).2.targetTokenAmount = 950 ∧
    (directDeposit envA dArgs).2.targetUnderlyingTokenAmount = 998 ∧
    (998 : ℤ) ≠ 997 := by
  refine ⟨rfl, ?_, by norm_num⟩
  show targetUnderlyingAmount 950 18 1050000000000000000 = 998
  norm_num [targetUnderlyingAmount, bnToFixed0, bnDiv, bnDivRound]

/-- When the divisor is a power of ten with at most 20 decimal places, the
`BigNumber` division (which rounds to 20 decimal places) is exact. -/
theorem bnDiv_pow_le (n d : ℕ) (h : d ≤ 20) :
    bnDiv (n : ℚ) ((10 : ℚ) ^ d) = (n : ℚ) / (10 : ℚ) ^ d := by
  have hsplit : (10 : ℚ) ^ (20 : ℕ) = (10 : ℚ) ^ d * (10 : ℚ) ^ (20 - d) := by
    rw [← pow_add]
    congr 1
    omega
  have key : (n : ℚ) / (10 : ℚ) ^ d * (10 : ℚ) ^ (20 : ℕ) = ((n * 10 ^ (20 - d) : ℕ) : ℚ) := by
    rw [hsplit]
    push_cast
    field_simp
    ring
  have hfloor : ⌊((n * 10 ^ (20 - d) : ℕ) : ℚ) + 1 / 2⌋ = ((n * 10 ^ (20 - d) : ℕ) : ℤ) := by
    rw [show ((n * 10 ^ (20 - d) : ℕ) : ℚ) = (((n * 10 ^ (20 - d) : ℕ) : ℤ) : ℚ) by push_cast; ring,
      add_comm, Int.floor_add_int]
    norm_num
  unfold bnDiv bnDivRound
  rw [key, hfloor]
  rw [div_eq_div_iff (by positivity) (by positivity)]
  push_cast
  rw [hsplit]
  ring

/-- C7 amended: for a direct deposit (with realistic decimals, at most
20), the underlying-token amount in the outcome equals the destination
amount times price-per-share divided by `10^decimals`, rounded half-up to
an integer — `BigNumber.toFixed(0)` with the default rounding mode — and
the outcome's conversion rate is 1 with slippage 0. -/
theorem direct_deposit_underlying_amount_formula (env : Env) (d : DepositArgs)
    (h : env.decimals d.toVault ≤ 20) :
    (directDeposit env d).2.targetUnderlyingTokenAmount =
      ⌊(env.simOutput : ℚ) * (env.pricePerShare d.toVault : ℚ) /
          (10 : ℚ) ^ env.decimals d.toVault + 1 / 2⌋ ∧
    (directDeposit env d).2.conversionRate = 1 ∧
    (directDeposit env d).2.slippage = 0 := by
  refine ⟨?_, rfl, rfl⟩
  show targetUnderlyingAmount env.simOutput (env.decimals d.toVault) (env.pricePerShare d.toVault)
      = _
  unfold targetUnderlyingAmount bnToFixed0
  rw [bnDiv_pow_le _ _ h, div_mul_eq_mul_div]

/-- C7 amended witness: the spec scenario (950 shares, 18 decimals,
price-per-share `1.05 * 10^18`) under `envA`, where the formula evaluates
to 998. -/
theorem direct_deposit_underlying_amount_formula_witness :
    envA.decimals dArgs.toVault ≤ 20 ∧
    (directDeposit envA dArgs).2.targetUnderlyingTokenAmount =
      ⌊(envA.simOutput : ℚ) * (envA.pricePerShare dArgs.toVault : ℚ) /
          (10 : ℚ) ^ envA.decimals dArgs.toVault + 1 / 2⌋ ∧
    ⌊(envA.simOutput : ℚ) * (envA.pricePerShare dArgs.toVault : ℚ) /
        (10 : ℚ) ^ envA.decimals dArgs.toVault + 1 / 2⌋ = 998 := by
  refine ⟨by decide, (direct_deposit_underlying_amount_formula envA dArgs (by decide)).1, ?_⟩
  show ⌊(950 : ℚ) * (1050000000000000000 : ℚ) / (10 : ℚ) ^ (18 : ℕ) + 1 / 2⌋ = 998
  norm_num

/-- C9: a routed deposit or withdraw whose options carry a slippage
tolerance equal to 0 throws the missing-slippage error exactly as if no
tolerance had been supplied, because the presence check is a JavaScript
falsiness test on the numeric value: this holds for `withdraw`, for
`zapOut`, and for `getZapperZapInSimulationArgs`. -/
theorem zero_slippage_treated_as_missing (env : Env) (sender fromVault : Addr) (amount : ℕ)
    (toToken underlying : Addr) (skipGas : Bool) (options : SimulationOptions) (d : DepositArgs)
    (hzap : env.vaultToken fromVault ≠ env.getAddress toToken)
    (h0 : options.slippage = some 0) (hd0 : d.options.slippage = some 0)
    (heth : env.isEth = true) :
    withdraw env sender fromVault amount toToken options =
      ([Ev.vaultTokenRead fromVault], .error .noSlippage, options) ∧
    zapOut env sender toToken underlying amount fromVault skipGas options =
      ([], .error .noSlippage, options) ∧
    getZapperZapInSimulationArgs env d = ([], .error .noSlippage) := by
  have hf : numFalsy options.slippage = true := by rw [h0]; rfl
  have hdf : numFalsy d.options.slippage = true := by rw [hd0]; rfl
  exact ⟨by simp [withdraw, hzap, hf], by simp [zapOut, hf],
    by simp [getZapperZapInSimulationArgs, heth, hdf]⟩

/-- C9 witness: a withdraw, a zap-out and a zap-in simulation-argument
request, each carrying `slippage = 0`, all throw the missing-slippage
error. -/
theorem zero_slippage_treated_as_missing_witness :
    envA.vaultToken "0xVAULT" ≠ envA.getAddress "0xDAI" ∧
    (SimulationOptions.slippage { slippage := some 0 }) = some 0 ∧
    dZero.options.slippage = some 0 ∧ envA.isEth = true ∧
    withdraw envA "0xME" "0xVAULT" 100 "0xDAI" { slippage := some 0 } =
      ([Ev.vaultTokenRead "0xVAULT"], .error .noSlippage, { slippage := some 0 }) ∧
    zapOut envA "0xME" "0xDAI" "0xUNDERLYING" 100 "0xVAULT" false { slippage := some 0 } =
      ([], .error .noSlippage, { slippage := some 0 }) ∧
    getZapperZapInSimulationArgs envA dZero = ([], .error .noSlippage) := by
  have h := zero_slippage_treated_as_missing envA "0xME" "0xVAULT" 100 "0xDAI" "0xUNDERLYING"
    false { slippage := some 0 } dZero (by decide) rfl rfl rfl
  exact ⟨by decide, rfl, rfl, rfl, h.1, h.2.1, h.2.2⟩

/-- Evaluation of `zapIn` when the slippage tolerance is present: the
quote is requested first, then the primary simulation (with the quote's
gas as limit exactly when gas estimation was not skipped), then the
pricing lookups. -/
theorem zapIn_eval (env : Env) (d : DepositArgs) (u : UnderlyingToken) (skip : Bool)
    (hs : numFalsy d.options.slippage = false) :
    zapIn env d u skip =
      (Ev.zapInQuote d.sender (zapTokenOf d.sellToken) d.amount d.toVault skip ::
         Ev.simVault d.sender env.zapInParams.target d.toVault d.options.forkId d.options.save
           d.options.root (zapInFinalOptions env d skip).gasLimit ::
         (zapInPriceEvents env d ++ [Ev.oracleUsdc (zapInOracleToken d.sellToken) d.amount]),
       .ok (zapInOutcome env d u), zapInFinalOptions env d skip) := by
  cases skip <;>
    simp [zapIn, zapInPriceEvents, zapInOracleToken, zapInOutcome, zapInRate, zapInReceivedUsdc,
      zapInFinalOptions, zapTokenOf, hs]

/-- `getZapperZapInApprovalData` on Ethereum always succeeds, returning
`zapInNeedsApproving` and `zapInApprovalInfo` with trace
`zapInApprovalTrace`. -/
theorem getZapperZapInApprovalData_eq (env : Env) (d : DepositArgs) (heth : env.isEth = true) :
    getZapperZapInApprovalData env d =
      (zapInApprovalTrace env d, .ok (zapInNeedsApproving env d, zapInApprovalInfo env d)) := by
  by_cases hnat : d.sellToken = EthAddress
  · simp [getZapperZapInApprovalData, zapInApprovalTrace, zapInApprovalInfo, zapInNeedsApproving,
      heth, hnat]
  · cases happ : env.zapInApproved d.sender d.sellToken <;>
      simp [getZapperZapInApprovalData, zapInApprovalTrace, zapInApprovalInfo, zapInNeedsApproving,
        heth, hnat, happ]

/-- No conversion-quote request ever occurs among the approval-resolution
events of the zap-in flow. -/
theorem zapInApprovalTrace_no_quote (env : Env) (d : DepositArgs) (s t : Addr) (a : ℕ) (v : Addr)
    (b : Bool) : Ev.zapInQuote s t a v b ∉ zapInApprovalTrace env d := by
  by_cases heth : env.isEth
  · by_cases hnat : d.sellToken = EthAddress
    · simp [zapInApprovalTrace, getZapperZapInApprovalData, heth, hnat]
    · cases happ : env.zapInApproved d.sender d.sellToken <;>
        simp [zapInApprovalTrace, getZapperZapInApprovalData, heth, hnat, happ]
  · simp [zapInApprovalTrace, getZapperZapInApprovalData, Bool.of_not_eq_true heth]

/-- The zap-in deposit flow: approval resolution first, then one zap-in
attempt with the approval data injected and `save := false`. -/
theorem zapperZapInSimulation_eq (env : Env) (d : DepositArgs) (u : UnderlyingToken)
    (heth : env.isEth = true) (hs : numFalsy d.options.slippage = false) :
    zapperZapInSimulation env d u =
      (zapInApprovalTrace env d ++
         (zapIn env (dPrimed env d) u (zapInNeedsApproving env d)).1,
       (zapIn env (dPrimed env d) u (zapInNeedsApproving env d)).2.1) := by
  have hs' : numFalsy (dPrimed env d).options.slippage = false := by
    simpa [dPrimed, withZapOptions] using hs
  have hz := zapIn_eval env (dPrimed env d) u (zapInNeedsApproving env d) hs'
  have had := getZapperZapInApprovalData_eq env d heth
  unfold zapperZapInSimulation getZapperZapInSimulationArgs
  rw [heth]
  simp only [Bool.not_true, Bool.false_eq_true, if_false, hs, had]
  rw [execWithRetry]
  rw [show dPrimed env d = withZapOptions d (zapInApprovalInfo env d) false from rfl] at hz
  rw [hz, show dPrimed env d = withZapOptions d (zapInApprovalInfo env d) false from rfl, hz]

/-- C8: on every routed (zapper) deposit, the conversion quote is
requested from the route provider only after approval resolution has
completed — no quote event occurs among the approval-resolution events,
and the quote is the first event after them; gas estimation is skipped in
the quote exactly when an approval simulation occurred
(`skipGasEstimate = needsApproving`); and when gas estimation is not
skipped, the quote's gas value is used as the gas limit of the primary
simulation. -/
theorem zap_quote_after_approval_resolution (env : Env) (d : DepositArgs) (u : UnderlyingToken)
    (heth : env.isEth = true) (hs : numFalsy d.options.slippage = false) :
    ∃ evA ad tail out,
      getZapperZapInApprovalData env d = (evA, .ok (zapInNeedsApproving env d, ad)) ∧
      (∀ s t a v b, Ev.zapInQuote s t a v b ∉ evA) ∧
      zapperZapInSimulation env d u =
        (evA ++
           Ev.zapInQuote d.sender (zapTokenOf d.sellToken) d.amount d.toVault
               (zapInNeedsApproving env d) ::
             Ev.simVault d.sender env.zapInParams.target d.toVault ad.forkId (some false)
               ad.approvalTransactionId
               (if zapInNeedsApproving env d then d.options.gasLimit
                else some env.zapInParams.gas) :: tail,
         .ok out) := by
  have hs' : numFalsy (dPrimed env d).options.slippage = false := by
    simpa [dPrimed, withZapOptions] using hs
  have hz := zapIn_eval env (dPrimed env d) u (zapInNeedsApproving env d) hs'
  have hcomp := zapperZapInSimulation_eq env d u heth hs
  refine ⟨zapInApprovalTrace env d, zapInApprovalInfo env d,
    zapInPriceEvents env (dPrimed env d) ++
      [Ev.oracleUsdc (zapInOracleToken d.sellToken) d.amount],
    zapInOutcome env (dPrimed env d) u, getZapperZapInApprovalData_eq env d heth,
    fun s t a v b => zapInApprovalTrace_no_quote env d s t a v b, ?_⟩
  rw [hcomp, hz]
  have hgl : (zapInFinalOptions env (dPrimed env d) (zapInNeedsApproving env d)).gasLimit =
      if zapInNeedsApproving env d then d.options.gasLimit else some env.zapInParams.gas := by
    cases hne : zapInNeedsApproving env d <;>
      simp [zapInFinalOptions, dPrimed, withZapOptions, hne]
  rw [hgl]
  simp [dPrimed, withZapOptions]

/-- C8 witness: the routed deposit `dSlip` (1% slippage) under `envA`. -/
theorem zap_quote_after_approval_resolution_witness :
    envA.isEth = true ∧ numFalsy dSlip.options.slippage = false ∧
    ∃ evA ad tail out,
      getZapperZapInApprovalData envA dSlip = (evA, .ok (zapInNeedsApproving envA dSlip, ad)) ∧
      (∀ s t a v b, Ev.zapInQuote s t a v b ∉ evA) ∧
      zapperZapInSimulation envA dSlip uTok =
        (evA ++
           Ev.zapInQuote dSlip.sender (zapTokenOf dSlip.sellToken) dSlip.amount dSlip.toVault
               (zapInNeedsApproving envA dSlip) ::
             Ev.simVault dSlip.sender envA.zapInParams.target dSlip.toVault ad.forkId (some false)
               ad.approvalTransactionId
               (if zapInNeedsApproving envA dSlip then dSlip.options.gasLimit
                else some envA.zapInParams.gas) :: tail,
         .ok out) :=
  ⟨rfl, by norm_num [dSlip, numFalsy],
    zap_quote_after_approval_resolution envA dSlip uTok rfl (by norm_num [dSlip, numFalsy])⟩

/-- C10: routed calls mutate the caller-supplied options object in
place. After a routed part_008 `withdraw` returns, `options.forkId`,
`options.root` and `options.save` have been overwritten by the engine
(with the approval fork and simulation id, or with `undefined` when no
approval was needed) and `options.gasLimit` has been overwritten with
the quote's gas whenever gas estimation was not skipped. After a routed
older (part_009) `deposit` returns, `options.forkId`, `options.root` and
`options.save` have likewise been overwritten, `options.gasPrice` has
been overwritten with the quote's gas price (by `zapIn`) whenever the
caller had left it unset, and `options.gasLimit` with the quote's gas
whenever gas estimation was not skipped — regardless of the values the
caller had set, so a second call with the same options object no longer
sees the original field values. -/
theorem routed_calls_overwrite_caller_options (env : Env) (sender fromVault : Addr)
    (amount : ℕ) (toToken : Addr) (options : SimulationOptions)
    (sender9 sellToken9 : Addr) (amount9 : ℕ) (toVault9 : Addr) (options9 : SimulationOptions)
    (hzap : env.vaultToken fromVault ≠ env.getAddress toToken)
    (hs : numFalsy options.slippage = false)
    (hzap9 : env.vaultToken toVault9 ≠ sellToken9)
    (hs9 : numFalsy options9.slippage = false) :
    (withdraw env sender fromVault amount toToken options).2.2 =
      { options with
          forkId := if withdrawNeedsApproving env sender fromVault then some env.freshForkId
                    else none
          root := if withdrawNeedsApproving env sender fromVault then some env.simulationId
                  else none
          save := some false
          gasLimit := if withdrawNeedsApproving env sender fromVault then options.gasLimit
                      else some env.zapOutParams.gas } ∧
    (deposit909 env sender9 sellToken9 amount9 toVault9 options9).2.2 =
      { options9 with
          forkId := if deposit909NeedsApproving env sender9 sellToken9 then some env.freshForkId
                    else none
          root := if deposit909NeedsApproving env sender9 sellToken9 then some env.simulationId
                  else none
          save := some false
          gasPrice := if strFalsy options9.gasPrice then some env.zapInParams.gasPrice
                      else options9.gasPrice
          gasLimit := if deposit909NeedsApproving env sender9 sellToken9 then options9.gasLimit
                      else some env.zapInParams.gas } := by
  constructor
  · by_cases hv : fromVault = EthAddress
    · subst hv
      simp [withdraw, withdrawNeedsApproving, hzap, hs, execWithRetry, zapOut]
    · cases hap : env.zapOutApproved sender fromVault <;>
        simp [withdraw, withdrawNeedsApproving, hzap, hs, hv, hap, execWithRetry, zapOut]
  · by_cases hnat : sellToken9 = EthAddress
    · subst hnat
      simp [deposit909, depositZapApprovalPhase, deposit909NeedsApproving, hzap9, hs9,
        execWithRetry, zapIn909]
    · cases happ : env.zapInApproved sender9 sellToken9 <;>
        simp [deposit909, depositZapApprovalPhase, deposit909NeedsApproving, hzap9, hs9, hnat,
          happ, execWithRetry, zapIn909]

/-- C10 witness: under `envA` (no approval needed), a routed withdraw
with fully-populated caller options comes back with `forkId`, `root`,
`save` and `gasLimit` overwritten, and a routed older deposit whose
options had no `gasPrice` comes back with `forkId`, `root`, `save`,
`gasPrice` and `gasLimit` all overwritten — neither object carries its
original values any more. -/
theorem routed_calls_overwrite_caller_options_witness :
    envA.vaultToken "0xVAULT" ≠ envA.getAddress "0xDAI" ∧
    numFalsy optsFull.slippage = false ∧
    envA.vaultToken "0xVAULT" ≠ "0xTOKEN" ∧
    numFalsy optsNoGasPrice.slippage = false ∧
    (withdraw envA "0xME" "0xVAULT" 100 "0xDAI" optsFull).2.2 =
      { optsFull with forkId := none, root := none, save := some false, gasLimit := some 456 } ∧
    ({ optsFull with forkId := none, root := none, save := some false, gasLimit := some 456 } :
        SimulationOptions) ≠ optsFull ∧
    (deposit909 envA "0xME" "0xTOKEN" 1000 "0xVAULT" optsNoGasPrice).2.2 =
      { optsNoGasPrice with
          forkId := none
          root := none
          save := some false
          gasPrice := some 5
          gasLimit := some 123 } ∧
    ({ optsNoGasPrice with
          forkId := none
          root := none
          save := some false
          gasPrice := some 5
          gasLimit := some 123 } : SimulationOptions) ≠ optsNoGasPrice := by
  have h := routed_calls_overwrite_caller_options envA "0xME" "0xVAULT" 100 "0xDAI" optsFull
    "0xME" "0xTOKEN" 1000 "0xVAULT" optsNoGasPrice (by decide) (by decide) (by decide) (by decide)
  refine ⟨by decide, by decide, by decide, by decide, ?_, by decide, ?_, by decide⟩
  · rw [h.1]
    decide
  · rw [h.2]
    decide

end YearnSdk
